import Mathlib

/-!
# InfraX / Brahma — verification of the orchestration core

Shallow embedding of the Python sources under `src/backend`:

* `brahma/agents/iac_generation.py`   — GPT-backed IaC code generator
* `brahma/agents/cost_optimization.py`— cost analysis agent
* `brahma/agents/service_selection.py`— service selection agent
* `brahma/tools/intelligent_planner.py`— intelligent planner
* `brahma/core/orchestrator.py`       — workflow orchestrator
* `api/main.py`                       — FastAPI endpoints (code management)

Modelling conventions:
* Python dicts returned by the agents become structures; a key read with
  `d.get(k, default)` is modelled as an `Option` field read with `.getD`.
* Each call to the OpenAI API (the "Oracle") is a blocking round-trip that
  either raises (modelled `Except.error msg`, which the enclosing `try`
  converts to a `success := False` dict) or returns text (`Except.ok text`).
* The filesystem is an association list from path to contents; Python's
  `open(path, "w")` truncates, i.e. replaces the entry for `path`.
* Timestamps are strings passed in by the caller (`datetime.now().strftime`).
* Floating-point display values (e.g. `savings_percentage`) are not modelled;
  all flat credits used by `_calculate_savings` are integers.
-/

namespace InfraX

/-! ## Filesystem model -/

/-- A filesystem: association list from absolute path to file contents.
`open(path, "w")` replaces the contents stored for `path`. -/
abbrev FS := List (String × String)

/-- `open(path, "w"); f.write(text)`: update-or-append the entry for `path`. -/
def fsWrite : FS → String → String → FS
  | [], p, c => [(p, c)]
  | (q, d) :: rest, p, c =>
      if q = p then (p, c) :: rest else (q, d) :: fsWrite rest p c

/-- `open(path, "r").read()`: `none` when the path is absent (IOError). -/
def fsRead (fs : FS) (path : String) : Option String :=
  (fs.find? (fun e => e.1 = path)).map (fun e => e.2)

theorem fsRead_fsWrite_same (fs : FS) (p c : String) :
    fsRead (fsWrite fs p c) p = some c := by
  induction fs with
  | nil => simp [fsWrite, fsRead]
  | cons hd tl ih =>
      obtain ⟨q, d⟩ := hd
      by_cases hq : q = p
      · simp [fsWrite, fsRead, hq]
      · simpa [fsWrite, fsRead, hq] using ih

theorem fsRead_fsWrite_other (fs : FS) (p p' c : String) (hne : p' ≠ p) :
    fsRead (fsWrite fs p c) p' = fsRead fs p' := by
  induction fs with
  | nil => simp [fsWrite, fsRead, Ne.symm hne]
  | cons hd tl ih =>
      obtain ⟨q, d⟩ := hd
      by_cases hq : q = p
      · subst hq
        simp [fsWrite, fsRead, hne, Ne.symm hne]
      · by_cases hq' : q = p'
        · subst hq'
          simp [fsWrite, fsRead, hq]
        · simpa [fsWrite, fsRead, hq, hq'] using ih

/-! ## Python string primitives

Structurally-recursive character-list implementations of the `str` methods
the agents use (`strip`, `lower`, `startswith`, `split`, `join`, `in`), so
that concrete runs evaluate inside the kernel. -/

/-- Drop leading whitespace characters. -/
def dropLeadingWs : List Char → List Char
  | [] => []
  | c :: rest => if c.isWhitespace then dropLeadingWs rest else c :: rest

/-- Python `str.strip()`: remove leading and trailing whitespace. -/
def pyStrip (s : String) : String :=
  ⟨(dropLeadingWs (dropLeadingWs s.data).reverse).reverse⟩

/-- Python `str.lower()` (ASCII case folding, the only case these inputs
use). -/
def pyLower (s : String) : String :=
  ⟨s.data.map Char.toLower⟩

/-- Python `str.startswith(pre)` on character lists. -/
def listIsPrefix : List Char → List Char → Bool
  | [], _ => true
  | _ :: _, [] => false
  | a :: as, b :: bs => a = b && listIsPrefix as bs

/-- Python `str.startswith(pre)`. -/
def pyStartsWith (s pre : String) : Bool :=
  listIsPrefix pre.data s.data

/-- Python `str.split("\n")` on character lists: always returns at least one
(possibly empty) segment. -/
def splitLines : List Char → List (List Char)
  | [] => [[]]
  | c :: rest =>
      let r := splitLines rest
      if c = '\n' then [] :: r
      else
        match r with
        | h :: t => (c :: h) :: t
        | [] => [[c]]

/-- Python `"\n".join(lines)` on character lists. -/
def joinLines : List (List Char) → List Char
  | [] => []
  | [l] => l
  | l :: rest => l ++ '\n' :: joinLines rest

/-! ## IaC Generation agent (`brahma/agents/iac_generation.py`) -/

/-- A service entry as passed between agents.  Entries produced by the
planner's service plan carry `component`/`service`/`category` keys; the cost
agent reads a `type` key; the selection agent emits `category`/`service`.
All keys are optional dict entries. -/
structure ServiceEntry where
  component : Option String := none
  service : Option String := none
  category : Option String := none
  type : Option String := none
  deriving Repr, DecidableEq

/-- `requirements` sub-dict of the IaC generation config. -/
structure IacRequirements where
  description : Option String := none
  scale : Option String := none
  environment : Option String := none
  region : Option String := none
  deriving Repr, DecidableEq

/-- Config dict accepted by `IaCGenerationAgent.generate_iac`. -/
structure IacConfig where
  cloud_provider : Option String := none
  iac_tool : Option String := none
  services : List ServiceEntry := []
  requirements : IacRequirements := {}
  optimization_notes : List String := []
  deriving Repr, DecidableEq

/-- Result dict of `generate_iac`. -/
structure IacResult where
  success : Bool
  error : Option String := none
  code : Option String := none
  filename : Option String := none
  file_path : Option String := none
  cloud_provider : Option String := none
  iac_tool : Option String := none
  services_count : Option Nat := none
  deriving Repr, DecidableEq

/-- The markdown fence marker. -/
def fence : String := "```"

/-- `_clean_code`: strip a leading/trailing markdown fence line, then strip
surrounding whitespace (`str.strip()`). -/
def clean_code (code : String) : String :=
  let stripped :=
    if pyStartsWith code fence then
      let lines := splitLines code.data
      let lines :=
        match lines with
        | l :: rest => if listIsPrefix fence.data l then rest else lines
        | [] => lines
      let lines :=
        match lines.getLast? with
        | some l => if listIsPrefix fence.data l then lines.dropLast else lines
        | none => lines
      (⟨joinLines lines⟩ : String)
    else code
  pyStrip stripped

/-- File extension chosen by `_save_code`: the dict
`\x7b"terraform": "tf", "cloudformation": "yaml", "pulumi": "py"\x7d.get(iac_tool, "txt")`. -/
def extension_for (iac_tool : String) : String :=
  if iac_tool = "terraform" then "tf"
  else if iac_tool = "cloudformation" then "yaml"
  else if iac_tool = "pulumi" then "py"
  else "txt"

/-- File name built by `_save_code`:
`f"\x7bcloud_provider\x7d_\x7biac_tool\x7d_\x7btimestamp\x7d.\x7bextension\x7d"`. -/
def save_filename (cloud_provider iac_tool timestamp : String) : String :=
  cloud_provider ++ "_" ++ iac_tool ++ "_" ++ timestamp ++ "." ++ extension_for iac_tool

/-- `IaCGenerationAgent.generate_iac`.  `oracle` is the outcome of the OpenAI
call (`Except.error` = raised exception, caught by the enclosing `try`),
`timestamp` is `datetime.now().strftime("%Y%m%d_%H%M%S")` taken inside
`_save_code`, `output_dir` is `self.output_dir`.  Returns the result dict and
the filesystem after the `_save_code` write. -/
def generate_iac (config : IacConfig) (oracle : Except String String)
    (timestamp output_dir : String) (fs : FS) : IacResult × FS :=
  match oracle with
  | .error e => ({ success := false, error := some e }, fs)
  | .ok raw =>
      let cloud_provider := config.cloud_provider.getD "aws"
      let iac_tool := config.iac_tool.getD "terraform"
      let generated_code := clean_code (pyStrip raw)
      let filename := save_filename cloud_provider iac_tool timestamp
      let file_path := output_dir ++ "/" ++ filename
      let fs' := fsWrite fs file_path generated_code
      ({ success := true
         code := some generated_code
         filename := some filename
         file_path := some file_path
         cloud_provider := some cloud_provider
         iac_tool := some iac_tool
         services_count := some config.services.length }, fs')

/-! ## Cost Optimization agent (`brahma/agents/cost_optimization.py`) -/

/-- Input dict of `CostOptimizationAgent.analyze_costs`. -/
structure CostInfra where
  cloud_provider : Option String := none
  services : List ServiceEntry := []
  usage_patterns : Option String := none
  current_cost : Nat := 0
  deriving Repr, DecidableEq

/-- Result dict of `analyze_costs`.  The `strategies` dict maps a service
type to its fixed strategy list; the orchestrator's substituted default
`\x7b"success": True, "strategies": \x7b\x7d\x7d` has no
`estimated_monthly_savings` key, so that field is an `Option` (reads in the
orchestrator use `.get(..., 0)`). -/
structure CostResult where
  success : Bool
  error : Option String := none
  cloud_provider : Option String := none
  current_cost : Option Nat := none
  estimated_monthly_savings : Option Nat := none
  optimization_recommendations : Option String := none
  strategies : List (String × List String) := []
  deriving Repr, DecidableEq

/-- `self.optimization_strategies` (static table in `__init__`). -/
def optimization_strategies : List (String × List String) :=
  [("compute",
    ["Right-sizing instances", "Using spot/preemptible instances",
     "Auto-scaling configuration", "Reserved instances for steady workloads",
     "Serverless for variable workloads"]),
   ("storage",
    ["Lifecycle policies", "Storage tiering", "Compression", "Deduplication",
     "Archive old data"]),
   ("database",
    ["Right-sizing database instances", "Read replicas optimization",
     "Connection pooling", "Query optimization", "Automated backups schedule"]),
   ("networking",
    ["CDN usage", "Data transfer optimization", "VPC endpoint usage",
     "Load balancer optimization"])]

/-- The flat credit `_calculate_savings` adds for one service entry: it reads
`service.get("type", "").lower()` and branches on that string.  The
`cloud_provider` pricing table is fetched by the Python code but unused by
these branches. -/
def savings_credit (service_type : String) : Nat :=
  if service_type = "compute" then 500
  else if service_type = "storage" then 200
  else if service_type = "database" then 300
  else if service_type = "networking" then 150
  else 0

/-- `_calculate_savings`: accumulate the flat credit of each entry's `type`
key over the service list (all credits are integral, so `round(x, 2)` is the
identity here). -/
def calculate_savings (services : List ServiceEntry) (cloud_provider : String) : Nat :=
  services.foldl (fun acc s => acc + savings_credit (pyLower (s.type.getD ""))) 0

/-- `_get_relevant_strategies`: keep the strategy table rows matching some
entry's `type` key (first-hit insertion order, no duplicates). -/
def get_relevant_strategies (services : List ServiceEntry) : List (String × List String) :=
  (services.foldl
    (fun acc s =>
      let t := pyLower (s.type.getD "")
      match optimization_strategies.find? (fun row => row.1 = t) with
      | some row => if acc.any (fun r => r.1 = t) then acc else acc ++ [row]
      | none => acc)
    [])

/-- `CostOptimizationAgent.analyze_costs`.  `oracle` is the outcome of the
OpenAI call; on `Except.error` the enclosing `try` returns the failure dict.
The `savings_percentage` float display field is not modelled. -/
def analyze_costs (infrastructure : CostInfra) (oracle : Except String String) :
    CostResult :=
  match oracle with
  | .error e => { success := false, error := some e }
  | .ok text =>
      let cloud_provider := pyLower (infrastructure.cloud_provider.getD "aws")
      let ai_response := pyStrip text
      { success := true
        cloud_provider := some cloud_provider
        current_cost := some infrastructure.current_cost
        estimated_monthly_savings :=
          some (calculate_savings infrastructure.services cloud_provider)
        optimization_recommendations := some ai_response
        strategies := get_relevant_strategies infrastructure.services }

/-! ## Service Selection agent (`brahma/agents/service_selection.py`) -/

/-- One recommendation entry emitted by `_parse_recommendations`. -/
structure Recommendation where
  category : String
  service : String
  provider : String
  deriving Repr, DecidableEq

/-- `self.service_catalog` (static table in `__init__`), keyed by provider. -/
def service_catalog (provider : String) : List (String × List String) :=
  if provider = "aws" then
    [("compute", ["EC2", "Lambda", "ECS", "Fargate", "EKS", "Batch"]),
     ("database", ["RDS", "DynamoDB", "Aurora", "DocumentDB", "Neptune"]),
     ("storage", ["S3", "EFS", "FSx", "EBS"]),
     ("networking", ["VPC", "CloudFront", "Route53", "ALB", "NLB"]),
     ("analytics", ["Athena", "EMR", "Redshift", "Kinesis"]),
     ("security", ["IAM", "KMS", "Secrets Manager", "WAF"])]
  else if provider = "azure" then
    [("compute", ["Virtual Machines", "Functions", "Container Instances", "AKS"]),
     ("database", ["SQL Database", "Cosmos DB", "PostgreSQL", "MySQL"]),
     ("storage", ["Blob Storage", "Files", "Data Lake", "Disk Storage"]),
     ("networking", ["VNet", "CDN", "DNS", "Load Balancer", "App Gateway"]),
     ("analytics", ["Synapse Analytics", "Data Factory", "Stream Analytics"]),
     ("security", ["AD", "Key Vault", "Security Center"])]
  else if provider = "gcp" then
    [("compute", ["Compute Engine", "Cloud Functions", "Cloud Run", "GKE"]),
     ("database", ["Cloud SQL", "Firestore", "Cloud Spanner", "Bigtable"]),
     ("storage", ["Cloud Storage", "Filestore", "Persistent Disk"]),
     ("networking", ["VPC", "Cloud CDN", "Cloud DNS", "Cloud Load Balancing"]),
     ("analytics", ["BigQuery", "Dataflow", "Pub/Sub", "Dataproc"]),
     ("security", ["IAM", "Cloud KMS", "Secret Manager"])]
  else []

/-- Substring occurrence at any position (Python `needle in hay`). -/
def listInfix (needle : List Char) : List Char → Bool
  | [] => listIsPrefix needle []
  | c :: rest => listIsPrefix needle (c :: rest) || listInfix needle rest

/-- `needle in hay` for strings. -/
def strContains (hay needle : String) : Bool :=
  listInfix needle.data hay.data

/-- Scan one catalog category: append a recommendation for each service name
occurring (case-insensitively) in the AI response. -/
def collect_category (ai_lower provider category : String) :
    List String → List Recommendation
  | [] => []
  | svc :: rest =>
      (if strContains ai_lower (pyLower svc)
       then [⟨category, svc, provider⟩] else []) ++
      collect_category ai_lower provider category rest

/-- Scan the whole catalog in order (the nested `for` loops). -/
def collect_recommendations (ai_lower provider : String) :
    List (String × List String) → List Recommendation
  | [] => []
  | (category, svcs) :: rest =>
      collect_category ai_lower provider category svcs ++
      collect_recommendations ai_lower provider rest

/-- The de-duplication pass: keep the first occurrence of each
`(category, service)` key (`seen` is the accumulated key set). -/
def dedup_recs : List Recommendation → List (String × String) → List Recommendation
  | [], _ => []
  | r :: rs, seen =>
      if (r.category, r.service) ∈ seen then dedup_recs rs seen
      else r :: dedup_recs rs ((r.category, r.service) :: seen)

/-- `_parse_recommendations`. -/
def parse_recommendations (ai_response provider : String) : List Recommendation :=
  dedup_recs
    (collect_recommendations (pyLower ai_response) provider (service_catalog provider))
    []

/-- Input dict of `ServiceSelectionAgent.analyze_requirements`. -/
structure SsRequirements where
  description : Option String := none
  workload_type : Option String := none
  scale : Option String := none
  budget : Option String := none
  cloud_provider : Option String := none
  deriving Repr, DecidableEq

/-- Result dict of `analyze_requirements`. -/
structure SsResult where
  success : Bool
  error : Option String := none
  cloud_provider : Option String := none
  workload_type : Option String := none
  scale : Option String := none
  recommendations : List Recommendation := []
  ai_analysis : Option String := none
  deriving Repr, DecidableEq

/-- `ServiceSelectionAgent.analyze_requirements`.  `oracle` is the outcome of
the OpenAI call; an exception is caught and turned into the failure dict. -/
def ss_analyze_requirements (requirements : SsRequirements)
    (oracle : Except String String) : SsResult :=
  match oracle with
  | .error e => { success := false, error := some e }
  | .ok text =>
      let cloud_provider := pyLower (requirements.cloud_provider.getD "aws")
      let ai_response := pyStrip text
      { success := true
        cloud_provider := some cloud_provider
        workload_type := some (requirements.workload_type.getD "general")
        scale := some (requirements.scale.getD "medium")
        recommendations := parse_recommendations ai_response cloud_provider
        ai_analysis := some ai_response }

/-! ## Intelligent Planner (`brahma/tools/intelligent_planner.py`)

Each of the planner's three Oracle calls is modelled as
`Except String (Option α)`: `Except.error msg` is a raised exception
(transport failure — it propagates to `plan_infrastructure`'s outer `try`),
`Except.ok none` is a reply that raises `json.JSONDecodeError` (handled with
the documented fallback), `Except.ok (some v)` is a parsed reply. -/

/-- `requirements` sub-object of the analysis JSON. -/
structure PlannerRequirements where
  app_type : Option String := none
  components : List String := []
  scale : Option String := none
  special_needs : List String := []
  deriving Repr, DecidableEq

/-- Parsed analysis JSON from `_analyze_requirements`, plus the `success`
key the Python code stores into the dict. -/
structure PlannerAnalysis where
  success : Bool := true
  recommended_provider : String
  recommended_region : String
  location_rationale : String
  requirements : PlannerRequirements := {}
  deriving Repr, DecidableEq

/-- `_analyze_requirements` after a non-raising Oracle call: a parsed reply is
returned with `success := True`; a `json.JSONDecodeError` yields the fixed
default decision. -/
def planner_analyze_requirements (parsed : Option PlannerAnalysis) : PlannerAnalysis :=
  match parsed with
  | some a => { a with success := true }
  | none =>
      { success := true
        recommended_provider := "aws"
        recommended_region := "us-east-1"
        location_rationale := "Default to AWS US East due to parsing error"
        requirements := { app_type := some "general", components := [], scale := some "medium" } }

/-- Parsed service-plan JSON from `_create_service_plan`. -/
structure ServicePlan where
  services : List ServiceEntry := []
  integrations : List String := []
  security_layers : List String := []
  deriving Repr, DecidableEq

/-- `_create_service_plan`'s parse fallback: the empty plan. -/
def planner_create_service_plan (parsed : Option ServicePlan) : ServicePlan :=
  parsed.getD { services := [], integrations := [], security_layers := [] }

/-- Parsed architecture JSON from `_design_architecture`. -/
structure Architecture where
  network_design : Option String := none
  data_flow : Option String := none
  security_zones : List String := []
  scalability : Option String := none
  availability : Option String := none
  monitoring : Option String := none
  deriving Repr, DecidableEq

/-- `_design_architecture`'s parse fallback. -/
def planner_design_architecture (parsed : Option Architecture) : Architecture :=
  parsed.getD
    { network_design := some "VPC with public and private subnets"
      data_flow := some "Standard 3-tier architecture"
      security_zones := ["Public", "Application", "Data"]
      scalability := some "Auto-scaling groups"
      availability := some "Multi-AZ deployment" }

/-- Result dict of `plan_infrastructure`. -/
structure PlanResult where
  success : Bool
  error : Option String := none
  cloud_provider : Option String := none
  region : Option String := none
  location_rationale : Option String := none
  requirements_analysis : Option PlannerRequirements := none
  service_plan : Option ServicePlan := none
  architecture : Option Architecture := none
  estimated_components : Option Nat := none
  deriving Repr, DecidableEq

/-- `IntelligentPlanner.plan_infrastructure`: run the three Oracle-backed
steps in order; a raised exception anywhere is caught by the outer `try` and
returned as the failure dict. -/
def plan_infrastructure
    (analysisOracle : Except String (Option PlannerAnalysis))
    (servicePlanOracle : Except String (Option ServicePlan))
    (architectureOracle : Except String (Option Architecture)) : PlanResult :=
  match analysisOracle with
  | .error e => { success := false, error := some e }
  | .ok parsedAnalysis =>
      let analysis := planner_analyze_requirements parsedAnalysis
      if analysis.success = false then
        { success := false, error := none }
      else
        match servicePlanOracle with
        | .error e => { success := false, error := some e }
        | .ok parsedPlan =>
            let service_plan := planner_create_service_plan parsedPlan
            match architectureOracle with
            | .error e => { success := false, error := some e }
            | .ok parsedArch =>
                let architecture := planner_design_architecture parsedArch
                { success := true
                  cloud_provider := some analysis.recommended_provider
                  region := some analysis.recommended_region
                  location_rationale := some analysis.location_rationale
                  requirements_analysis := some analysis.requirements
                  service_plan := some service_plan
                  architecture := some architecture
                  estimated_components := some service_plan.services.length }

/-! ## Diagram generator result (`brahma/tools/diagram_generator.py`) -/

/-- Result dict of `DiagramGenerator.generate_diagram` (only the fields the
orchestrator reads). -/
structure DiagramResult where
  success : Bool
  error : Option String := none
  diagram_code : Option String := none
  filename : Option String := none
  deriving Repr, DecidableEq

/-! ## Workflow Orchestrator (`brahma/core/orchestrator.py`) -/

/-- The five pipeline stages of `execute_intelligent_workflow`. -/
inductive Stage where
  | planning
  | costOptimization
  | serviceRefinement
  | iacGeneration
  | diagramGeneration
  deriving Repr, DecidableEq

/-- The collaborator outcomes one run of `execute_intelligent_workflow`
would observe, one per stage (each stage's agent call returns a dict). -/
structure OrchEnv where
  planResult : PlanResult
  costResult : CostResult
  servicesResult : SsResult
  iacResult : IacResult
  diagramResult : DiagramResult
  htmlPath : String
  deriving Repr, DecidableEq

/-- `input` sub-dict of the workflow record. -/
structure WorkflowInput where
  prompt : String
  location : Option String
  iac_tool : String
  deriving Repr, DecidableEq

/-- `steps` sub-dict of the workflow record. -/
structure WorkflowSteps where
  intelligent_planning : PlanResult
  cost_optimization : CostResult
  service_refinement : SsResult
  iac_generation : IacResult
  diagram_generation : DiagramResult
  deriving Repr, DecidableEq

/-- `summary` sub-dict of the workflow record (present only on success). -/
structure WorkflowSummary where
  cloud_provider : Option String
  region : Option String
  location_rationale : Option String
  iac_tool : String
  services_count : Nat
  estimated_savings : Nat
  code_file : Option String
  code_path : Option String
  architecture : Option Architecture
  mermaid_diagram : Option String
  diagram_file : Option String
  html_preview : Option String
  deriving Repr, DecidableEq

/-- A workflow record: the success shape built at the end of
`execute_intelligent_workflow`, or the failure shape built by
`_create_error_response` (whose dict has no `steps`/`summary` keys). -/
structure WorkflowRecord where
  workflow_id : String
  success : Bool
  workflow_type : Option String := none
  timestamp : String
  input : Option WorkflowInput := none
  steps : Option WorkflowSteps := none
  summary : Option WorkflowSummary := none
  error : Option String := none
  error_details : Option String := none
  deriving Repr, DecidableEq

/-- Orchestrator state: `self.workflow_history`. -/
structure OrchState where
  workflow_history : List WorkflowRecord
  deriving Repr, DecidableEq

/-- `get_workflow_history`. -/
def get_workflow_history (st : OrchState) : List WorkflowRecord :=
  st.workflow_history

/-- `_create_error_response`. -/
def create_error_response (workflow_id message : String) (error : Option String)
    (now : String) : WorkflowRecord :=
  { workflow_id := workflow_id
    success := false
    timestamp := now
    error := some message
    error_details := error }

/-- The default dict the orchestrator substitutes when the cost stage fails:
`\x7b"success": True, "strategies": \x7b\x7d\x7d` (every other key absent). -/
def defaultCostResult : CostResult :=
  { success := true, strategies := [] }

/-- Outcome of one `execute_intelligent_workflow` run: the returned record,
the stages whose agent was invoked (in order), and the orchestrator state
after the run. -/
structure RunOutcome where
  result : WorkflowRecord
  invoked : List Stage
  state : OrchState
  deriving Repr, DecidableEq

/-- `BrahmaOrchestrator.execute_intelligent_workflow`.  `env` carries the
outcome each collaborator call would produce, `workflow_id` and `now` stand
for the `datetime`-derived strings.  Control flow mirrors the source: a
failed planning or IaC-generation stage aborts via `_create_error_response`
without touching later stages or the history; a failed cost stage is
replaced by `defaultCostResult`; the service-refinement and diagram stages
are never checked for success; only the final success record is appended to
`self.workflow_history`. -/
def execute_intelligent_workflow (env : OrchEnv) (prompt : String)
    (location : Option String) (workflow_id now : String) (st : OrchState) :
    RunOutcome :=
  let iac_tool := "terraform"
  let plan_result := env.planResult
  if plan_result.success = false then
    { result := create_error_response workflow_id "Intelligent planning failed"
        plan_result.error now
      invoked := [Stage.planning]
      state := st }
  else
    let services := (plan_result.service_plan.getD {}).services
    let cost_result0 := env.costResult
    let cost_result := if cost_result0.success then cost_result0 else defaultCostResult
    let services_result := env.servicesResult
    let iac_result := env.iacResult
    if iac_result.success = false then
      { result := create_error_response workflow_id "IaC Generation failed"
          iac_result.error now
        invoked := [Stage.planning, Stage.costOptimization, Stage.serviceRefinement,
          Stage.iacGeneration]
        state := st }
    else
      let diagram_result := env.diagramResult
      let html_path := if diagram_result.success then some env.htmlPath else none
      let record : WorkflowRecord :=
        { workflow_id := workflow_id
          success := true
          workflow_type := some "intelligent"
          timestamp := now
          input := some { prompt := prompt, location := location, iac_tool := iac_tool }
          steps := some
            { intelligent_planning := plan_result
              cost_optimization := cost_result
              service_refinement := services_result
              iac_generation := iac_result
              diagram_generation := diagram_result }
          summary := some
            { cloud_provider := plan_result.cloud_provider
              region := plan_result.region
              location_rationale := plan_result.location_rationale
              iac_tool := iac_tool
              services_count := services.length
              estimated_savings := cost_result.estimated_monthly_savings.getD 0
              code_file := iac_result.filename
              code_path := iac_result.file_path
              architecture := plan_result.architecture
              mermaid_diagram := diagram_result.diagram_code
              diagram_file := diagram_result.filename
              html_preview := html_path } }
      { result := record
        invoked := [Stage.planning, Stage.costOptimization, Stage.serviceRefinement,
          Stage.iacGeneration, Stage.diagramGeneration]
        state := { workflow_history := st.workflow_history ++ [record] } }

/-! ## HTTP API layer (`api/main.py`) -/

/-- One row of the `workflows` table (`WorkflowModel`), restricted to the
columns the code-management endpoints read. -/
structure DbWorkflow where
  workflow_id : String
  code_path : String
  code_file : Option String := none
  timestamp : String := ""
  deriving Repr, DecidableEq

/-- One row of the `code_versions` table (`CodeVersionModel`). -/
structure CodeVersionRec where
  workflow_id : String
  version : Nat
  terraform_code : String
  file_path : String
  modified_by : String
  change_description : Option String
  timestamp : String
  deriving Repr, DecidableEq

/-- Server-side state visible to the endpoints: the two database tables, the
filesystem, and Brahma's in-memory `workflow_history` (the fallback store). -/
structure ApiState where
  workflows : List DbWorkflow
  code_versions : List CodeVersionRec
  fs : FS
  history : List WorkflowRecord
  deriving Repr, DecidableEq

/-- `db.query(WorkflowModel).filter(workflow_id == wf).first()`. -/
def find_workflow (workflows : List DbWorkflow) (wf : String) : Option DbWorkflow :=
  workflows.find? (fun w => w.workflow_id = wf)

/-- Version numbers stored for a workflow id, in table order. -/
def versions_for (code_versions : List CodeVersionRec) (wf : String) : List Nat :=
  (code_versions.filter (fun c => c.workflow_id = wf)).map (fun c => c.version)

/-- The maximum stored version for a workflow id, 0 when none.  The Python
query `order_by(version.desc()).first()` returns the row of maximal version
(or `None`), and both endpoints compute
`(latest_version.version + 1) if latest_version else 1`, which equals this
maximum plus one in either case. -/
def max_version (code_versions : List CodeVersionRec) (wf : String) : Nat :=
  (versions_for code_versions wf).foldl max 0

/-- `order_by(version.desc()).first()` as an `Option`: `none` when the
workflow has no stored versions. -/
def latest_version_num (code_versions : List CodeVersionRec) (wf : String) :
    Option Nat :=
  if (versions_for code_versions wf).isEmpty then none
  else some (max_version code_versions wf)

/-- `vishu.read_terraform_file`: file contents, or `None` on any read error
(missing file included). -/
def read_terraform_file (fs : FS) (file_path : String) : Option String :=
  fsRead fs file_path

/-- `POST /api/v1/workflows/\x7bworkflow_id\x7d/code`
(`update_terraform_code`): look up the workflow (404 when absent), assign
version `previous_max + 1` (1 when no prior version), append the new
`CodeVersionModel` row, overwrite the workflow's code file, commit.  Returns
the assigned version and the new state, or the HTTP status code. -/
def update_terraform_code (st : ApiState) (workflow_id terraform_code : String)
    (change_description : Option String) (now : String) :
    Except Nat (Nat × ApiState) :=
  match find_workflow st.workflows workflow_id with
  | none => .error 404
  | some w =>
      let new_version := max_version st.code_versions workflow_id + 1
      let row : CodeVersionRec :=
        { workflow_id := workflow_id
          version := new_version
          terraform_code := terraform_code
          file_path := w.code_path
          modified_by := "user"
          change_description := change_description
          timestamp := now }
      .ok (new_version,
        { st with
          code_versions := st.code_versions ++ [row]
          fs := fsWrite st.fs w.code_path terraform_code })

/-- `POST /api/v1/workflows/\x7bworkflow_id\x7d/code/apply-suggestion`
(`apply_vishu_suggestion`): identical versioning logic, actor tag `"vishu"`,
and `change_description or "Applied Vishu's suggestion"` (Python `or`:
`None` and `""` both fall back). -/
def apply_vishu_suggestion (st : ApiState) (workflow_id terraform_code : String)
    (change_description : Option String) (now : String) :
    Except Nat (Nat × ApiState) :=
  match find_workflow st.workflows workflow_id with
  | none => .error 404
  | some w =>
      let new_version := max_version st.code_versions workflow_id + 1
      let desc :=
        match change_description with
        | some d => if d = "" then "Applied Vishu's suggestion" else d
        | none => "Applied Vishu's suggestion"
      let row : CodeVersionRec :=
        { workflow_id := workflow_id
          version := new_version
          terraform_code := terraform_code
          file_path := w.code_path
          modified_by := "vishu"
          change_description := some desc
          timestamp := now }
      .ok (new_version,
        { st with
          code_versions := st.code_versions ++ [row]
          fs := fsWrite st.fs w.code_path terraform_code })

/-- Response body of `GET /api/v1/workflows/\x7bworkflow_id\x7d/code`. -/
structure GetCodeResponse where
  workflow_id : String
  terraform_code : String
  file_path : String
  file_name : Option String
  current_version : Nat
  deriving Repr, DecidableEq

/-- The in-memory fallback branch of `get_terraform_code`: look the workflow
up in Brahma's history, take `summary.code_path`, read the file; any missing
link or falsy content is a 404. -/
def get_code_fallback (st : ApiState) (workflow_id : String) :
    Except Nat GetCodeResponse :=
  match st.history.find? (fun w => w.workflow_id = workflow_id) with
  | none => .error 404
  | some w =>
      match (w.summary.map (fun s => s.code_path)).getD none with
      | none => .error 404
      | some code_path =>
          match read_terraform_file st.fs code_path with
          | none => .error 404
          | some content =>
              if content = "" then .error 404
              else
                .ok { workflow_id := workflow_id
                      terraform_code := content
                      file_path := code_path
                      file_name := (w.summary.map (fun s => s.code_file)).getD none
                      current_version := 1 }

/-- `GET /api/v1/workflows/\x7bworkflow_id\x7d/code` (`get_terraform_code`):
try the database first; the response is returned only when the workflow row
exists and the file contents are truthy (`if terraform_code:` — the empty
string falls through), otherwise control reaches the in-memory fallback. -/
def get_terraform_code (st : ApiState) (workflow_id : String) :
    Except Nat GetCodeResponse :=
  match find_workflow st.workflows workflow_id with
  | none => get_code_fallback st workflow_id
  | some w =>
      match read_terraform_file st.fs w.code_path with
      | none => get_code_fallback st workflow_id
      | some content =>
          if content = "" then get_code_fallback st workflow_id
          else
            .ok { workflow_id := workflow_id
                  terraform_code := content
                  file_path := w.code_path
                  file_name := w.code_file
                  current_version := (latest_version_num st.code_versions workflow_id).getD 1 }

/-! ### `POST /api/v1/workflows/intelligent` (`create_intelligent_workflow`) -/

/-- Request body (`IntelligentWorkflowRequest`): all fields optional. -/
structure WorkflowRequest where
  prompt : Option String := none
  location : Option String := none
  repo_url : Option String := none
  deriving Repr, DecidableEq

/-- Python truthiness of an optional string: `None` and `""` are falsy. -/
def truthy : Option String → Bool
  | none => false
  | some s => s ≠ ""

/-- Result of `repo_analyzer.analyze_repository` (only the fields the
endpoint reads). -/
structure RepoAnalysis where
  success : Bool
  error : Option String := none
  generated_prompt : String := ""
  deriving Repr, DecidableEq

/-- `create_intelligent_workflow`: validate that `prompt` or `repo_url` is
truthy (400 otherwise, before anything else runs), derive the final prompt
from the repository analysis when a `repo_url` is given (400 when the
analysis fails), then run `brahma.execute_intelligent_workflow`.  `repoOracle`
is the analyzer outcome consulted only on the repo path; the returned
`RunOutcome` exposes which stages ran (and hence whether any Oracle request
was issued: a request happens only inside an invoked stage). -/
def create_intelligent_workflow (request : WorkflowRequest)
    (repoOracle : RepoAnalysis) (env : OrchEnv) (workflow_id now : String)
    (st : OrchState) : Except Nat RunOutcome :=
  if truthy request.prompt = false ∧ truthy request.repo_url = false then
    .error 400
  else
    if truthy request.repo_url then
      if repoOracle.success = false then .error 400
      else
        let final_prompt :=
          match request.prompt with
          | some p =>
              if pyStrip p ≠ "" then
                repoOracle.generated_prompt ++ "\n\nAdditional Requirements:\n" ++ p
              else repoOracle.generated_prompt
          | none => repoOracle.generated_prompt
        .ok (execute_intelligent_workflow env final_prompt request.location
          workflow_id now st)
    else
      .ok (execute_intelligent_workflow env (request.prompt.getD "")
        request.location workflow_id now st)

/-! ## Concrete fixtures used by witnesses and counterexamples -/

/-- A successful planner outcome. -/
def planOkFx : PlanResult :=
  { success := true
    cloud_provider := some "aws"
    region := some "ap-south-1"
    location_rationale := some "closest region"
    service_plan := some
      { services := [{ component := some "api", service := some "EC2", category := some "compute" }] } }

/-- A failed planner outcome. -/
def planFailFx : PlanResult :=
  { success := false, error := some "openai timeout" }

/-- A successful cost outcome. -/
def costOkFx : CostResult :=
  { success := true, estimated_monthly_savings := some 500 }

/-- A failed cost outcome. -/
def costFailFx : CostResult :=
  { success := false, error := some "rate limited" }

/-- A successful service-refinement outcome. -/
def ssOkFx : SsResult := { success := true }

/-- A successful IaC outcome. -/
def iacOkFx : IacResult :=
  { success := true
    code := some "resource"
    filename := some "aws_terraform_20250101_000000.tf"
    file_path := some "/data/generated_code/aws_terraform_20250101_000000.tf" }

/-- A successful diagram outcome. -/
def diagOkFx : DiagramResult :=
  { success := true, diagram_code := some "graph TD", filename := some "d.mmd" }

/-- Environment whose planning stage fails. -/
def envPlanFailFx : OrchEnv :=
  { planResult := planFailFx, costResult := costOkFx, servicesResult := ssOkFx
    iacResult := iacOkFx, diagramResult := diagOkFx, htmlPath := "/d/p.html" }

/-- Environment where only the cost stage fails. -/
def envCostFailFx : OrchEnv :=
  { planResult := planOkFx, costResult := costFailFx, servicesResult := ssOkFx
    iacResult := iacOkFx, diagramResult := diagOkFx, htmlPath := "/d/p.html" }

/-! ## C1 — hard/soft stage failure policy -/

/-- C1: in `execute_intelligent_workflow`, a failed planning stage aborts the
run immediately: the returned record has `success = False`, carries the
failing stage's name (`"Intelligent planning failed"`) and the underlying
error, has no summary, and no later stage is invoked.  A failed
cost-estimation stage is instead replaced by the default
`\x7b"success": True, "strategies": \x7b\x7d\x7d`, the pipeline continues,
and (the IaC stage succeeding) the run finishes with `success = True`. -/
theorem orchestrator_stage_failure_policy (env : OrchEnv) (prompt : String)
    (location : Option String) (workflow_id now : String) (st : OrchState) :
    (env.planResult.success = false →
      ((execute_intelligent_workflow env prompt location workflow_id now st).result.success
          = false ∧
        (execute_intelligent_workflow env prompt location workflow_id now st).result.error
          = some "Intelligent planning failed" ∧
        (execute_intelligent_workflow env prompt location workflow_id now st).result.error_details
          = env.planResult.error ∧
        (execute_intelligent_workflow env prompt location workflow_id now st).result.summary
          = none ∧
        (execute_intelligent_workflow env prompt location workflow_id now st).invoked
          = [Stage.planning])) ∧
    (env.planResult.success = true → env.costResult.success = false →
      env.iacResult.success = true →
      (((execute_intelligent_workflow env prompt location workflow_id now st).result.steps.map
            (fun s => s.cost_optimization)) = some defaultCostResult ∧
        (execute_intelligent_workflow env prompt location workflow_id now st).result.success
          = true)) := by
  constructor
  · intro h
    simp [execute_intelligent_workflow, h, create_error_response]
  · intro h1 h2 h3
    simp [execute_intelligent_workflow, h1, h2, h3]

/-- C1 witness: the policy evaluated on two concrete environments, one with a
failed planner, one with only a failed cost stage. -/
theorem orchestrator_stage_failure_policy_witness :
    (((execute_intelligent_workflow envPlanFailFx "build a shop" none "wf1" "t1"
          ⟨[]⟩).result.success = false ∧
      (execute_intelligent_workflow envPlanFailFx "build a shop" none "wf1" "t1"
          ⟨[]⟩).result.error = some "Intelligent planning failed" ∧
      (execute_intelligent_workflow envPlanFailFx "build a shop" none "wf1" "t1"
          ⟨[]⟩).result.error_details = envPlanFailFx.planResult.error ∧
      (execute_intelligent_workflow envPlanFailFx "build a shop" none "wf1" "t1"
          ⟨[]⟩).result.summary = none ∧
      (execute_intelligent_workflow envPlanFailFx "build a shop" none "wf1" "t1"
          ⟨[]⟩).invoked = [Stage.planning])) ∧
    ((((execute_intelligent_workflow envCostFailFx "build a shop" none "wf2" "t2"
            ⟨[]⟩).result.steps.map (fun s => s.cost_optimization))
        = some defaultCostResult ∧
      (execute_intelligent_workflow envCostFailFx "build a shop" none "wf2" "t2"
          ⟨[]⟩).result.success = true)) :=
  ⟨(orchestrator_stage_failure_policy envPlanFailFx "build a shop" none "wf1" "t1"
      ⟨[]⟩).1 (by decide),
   (orchestrator_stage_failure_policy envCostFailFx "build a shop" none "wf2" "t2"
      ⟨[]⟩).2 (by decide) (by decide) (by decide)⟩

/-! ## C2 — history persistence -/

/-- C2 counterexample: a run whose planning stage fails concludes with a
failed record, yet `get_workflow_history` still returns the empty history —
no record of the failed run is appended, contradicting the claim that every
run (success or failure) appends one record at the moment it concludes. -/
theorem history_not_appended_on_failure_counterexample :
    (execute_intelligent_workflow envPlanFailFx "build a shop" none "wf1" "t1"
        ⟨[]⟩).result.success = false ∧
    get_workflow_history
      (execute_intelligent_workflow envPlanFailFx "build a shop" none "wf1" "t1"
        ⟨[]⟩).state = [] := by
  decide

/-- C2 amended: exactly the successful runs append (one) record; a run that
aborts with a failure returns its error record without persisting it, so the
history after the run equals the prior history. -/
theorem history_appended_iff_success (env : OrchEnv) (prompt : String)
    (location : Option String) (workflow_id now : String) (st : OrchState) :
    get_workflow_history
        (execute_intelligent_workflow env prompt location workflow_id now st).state =
      if (execute_intelligent_workflow env prompt location workflow_id now st).result.success
      then get_workflow_history st ++
        [(execute_intelligent_workflow env prompt location workflow_id now st).result]
      else get_workflow_history st := by
  unfold execute_intelligent_workflow
  by_cases hp : env.planResult.success = false <;>
    by_cases hi : env.iacResult.success = false <;>
      simp [hp, hi, get_workflow_history, create_error_response]

/-! ## C3 — dialect validation in `generate_iac` -/

/-- Config requesting the unsupported dialect `ansible`. -/
def ansibleCfgFx : IacConfig :=
  { cloud_provider := some "aws", iac_tool := some "ansible" }

/-- C3 counterexample: `generate_iac` called with the unsupported dialect
`"ansible"` (and a successful Oracle call) does not fail at all — it returns
`success = True` and writes an output file (with the fallback `txt`
extension), so no `UnsupportedDialect` error exists on this path. -/
theorem generate_iac_unknown_dialect_counterexample :
    (generate_iac ansibleCfgFx (.ok "x") "20250101_000000" "/out" []).1.success = true ∧
    (generate_iac ansibleCfgFx (.ok "x") "20250101_000000" "/out" []).1.filename =
      some "aws_ansible_20250101_000000.txt" ∧
    fsRead (generate_iac ansibleCfgFx (.ok "x") "20250101_000000" "/out" []).2
      "/out/aws_ansible_20250101_000000.txt" = some "x" := by
  decide

/-- C3 amended: `generate_iac` performs no dialect validation.  For any
dialect selector outside the three supported values, the request still
succeeds (given a successful Oracle call): the code is generated and written
to a file whose extension falls back to `txt`. -/
theorem generate_iac_no_dialect_validation (config : IacConfig)
    (raw timestamp output_dir tool : String) (fs : FS)
    (htool : config.iac_tool = some tool)
    (hne : tool ∉ (["terraform", "cloudformation", "pulumi"] : List String)) :
    (generate_iac config (.ok raw) timestamp output_dir fs).1.success = true ∧
    (generate_iac config (.ok raw) timestamp output_dir fs).1.filename =
      some (save_filename (config.cloud_provider.getD "aws") tool timestamp) ∧
    extension_for tool = "txt" ∧
    fsRead (generate_iac config (.ok raw) timestamp output_dir fs).2
        (output_dir ++ "/" ++ save_filename (config.cloud_provider.getD "aws") tool timestamp) =
      some (clean_code (pyStrip raw)) := by
  simp only [List.mem_cons, List.mem_singleton, not_or] at hne
  obtain ⟨h1, h2, h3⟩ := hne
  refine ⟨rfl, ?_, ?_, ?_⟩
  · simp [generate_iac, htool]
  · simp [extension_for, h1, h2, h3]
  · simp [generate_iac, htool, fsRead_fsWrite_same]

/-- C3 witness: the amended theorem applied at the concrete `ansible`
config. -/
theorem generate_iac_no_dialect_validation_witness :
    (generate_iac ansibleCfgFx (.ok "x") "20250101_000000" "/out" []).1.success = true ∧
    (generate_iac ansibleCfgFx (.ok "x") "20250101_000000" "/out" []).1.filename =
      some (save_filename "aws" "ansible" "20250101_000000") ∧
    extension_for "ansible" = "txt" ∧
    fsRead (generate_iac ansibleCfgFx (.ok "x") "20250101_000000" "/out" []).2
        ("/out" ++ "/" ++ save_filename "aws" "ansible" "20250101_000000") =
      some (clean_code (pyStrip "x")) :=
  generate_iac_no_dialect_validation ansibleCfgFx "x" "20250101_000000" "/out"
    "ansible" [] (by decide) (by decide)

/-! ## C9 — file naming and overwrite behaviour -/

/-- Config for the overwrite counterexample. -/
def tfCfgFx : IacConfig :=
  { cloud_provider := some "aws", iac_tool := some "terraform" }

/-- Filesystem after a first `generate_iac` invocation. -/
def fsAfterFirstFx : FS :=
  (generate_iac tfCfgFx (.ok "alpha") "20250101_120000" "/out" []).2

/-- C9 counterexample: two invocations with the same provider, dialect and
generation timestamp (the timestamp has one-second granularity) produce the
SAME file name, and the second write replaces the first file's contents —
refuting both the distinct-names and the never-overwrites parts of the
claim. -/
theorem generate_iac_same_timestamp_overwrite_counterexample :
    (generate_iac tfCfgFx (.ok "alpha") "20250101_120000" "/out" []).1.filename =
      (generate_iac tfCfgFx (.ok "beta") "20250101_120000" "/out" fsAfterFirstFx).1.filename ∧
    fsRead fsAfterFirstFx "/out/aws_terraform_20250101_120000.tf" = some "alpha" ∧
    fsRead (generate_iac tfCfgFx (.ok "beta") "20250101_120000" "/out" fsAfterFirstFx).2
      "/out/aws_terraform_20250101_120000.tf" = some "beta" := by
  decide

theorem save_filename_ts_inj (p t ts1 ts2 : String)
    (h : save_filename p t ts1 = save_filename p t ts2) : ts1 = ts2 := by
  have hd := congrArg String.data h
  simp only [save_filename, String.data_append, List.append_assoc] at hd
  have hd' := List.append_cancel_left hd
  have hd'' := List.append_cancel_left hd'
  have hd3 := List.append_cancel_left hd''
  have hd4 := List.append_cancel_left hd3
  exact String.ext (List.append_cancel_right hd4)

/-- C9 amended: every output file name embeds the provider, the dialect and
the generation timestamp; two invocations sharing provider and dialect
produce distinct file names whenever their (second-granularity) timestamps
differ, and in that case the later invocation leaves the earlier
invocation's file untouched.  (Two invocations falling in the same second
collide and overwrite — see the counterexample.) -/
theorem generate_iac_distinct_timestamps_distinct_files (config : IacConfig)
    (raw1 raw2 ts1 ts2 output_dir : String) (fs : FS) (hts : ts1 ≠ ts2) :
    (generate_iac config (.ok raw1) ts1 output_dir fs).1.filename ≠
      (generate_iac config (.ok raw2) ts2 output_dir
        (generate_iac config (.ok raw1) ts1 output_dir fs).2).1.filename ∧
    fsRead
        (generate_iac config (.ok raw2) ts2 output_dir
          (generate_iac config (.ok raw1) ts1 output_dir fs).2).2
        (output_dir ++ "/" ++
          save_filename (config.cloud_provider.getD "aws") (config.iac_tool.getD "terraform") ts1) =
      some (clean_code (pyStrip raw1)) := by
  have hname : save_filename (config.cloud_provider.getD "aws")
      (config.iac_tool.getD "terraform") ts1 ≠
      save_filename (config.cloud_provider.getD "aws")
        (config.iac_tool.getD "terraform") ts2 :=
    fun h => hts (save_filename_ts_inj _ _ _ _ h)
  constructor
  · simpa [generate_iac] using fun h => hname h
  · have hpath : output_dir ++ "/" ++
        save_filename (config.cloud_provider.getD "aws")
          (config.iac_tool.getD "terraform") ts1 ≠
        output_dir ++ "/" ++
          save_filename (config.cloud_provider.getD "aws")
            (config.iac_tool.getD "terraform") ts2 := by
      intro h
      apply hname
      have hd := congrArg String.data h
      simp only [String.data_append, List.append_assoc] at hd
      exact String.ext (List.append_cancel_left (List.append_cancel_left hd))
    simp [generate_iac, fsRead_fsWrite_other _ _ _ _ hpath, fsRead_fsWrite_same]

/-- C9 witness: the amended theorem at two concrete timestamps one second
apart. -/
theorem generate_iac_distinct_timestamps_distinct_files_witness :
    (generate_iac tfCfgFx (.ok "alpha") "20250101_120000" "/out" []).1.filename ≠
      (generate_iac tfCfgFx (.ok "beta") "20250101_120001" "/out"
        (generate_iac tfCfgFx (.ok "alpha") "20250101_120000" "/out" []).2).1.filename ∧
    fsRead
        (generate_iac tfCfgFx (.ok "beta") "20250101_120001" "/out"
          (generate_iac tfCfgFx (.ok "alpha") "20250101_120000" "/out" []).2).2
        ("/out" ++ "/" ++
          save_filename (tfCfgFx.cloud_provider.getD "aws") (tfCfgFx.iac_tool.getD "terraform")
            "20250101_120000") =
      some (clean_code (pyStrip "alpha")) :=
  generate_iac_distinct_timestamps_distinct_files tfCfgFx "alpha" "beta"
    "20250101_120000" "20250101_120001" "/out" [] (by decide)

/-! ## C4 — empty prompt rejected before any Oracle call -/

/-- C4: when the request's prompt is empty (or absent) and no repository URL
is supplied, `create_intelligent_workflow` fails with HTTP 400 and never
reaches `execute_intelligent_workflow` — the endpoint returns no
`RunOutcome`, so no stage is invoked and no Oracle request is issued (every
Oracle call in the pipeline happens inside an invoked stage of a returned
`RunOutcome`). -/
theorem empty_prompt_rejected_before_oracle (request : WorkflowRequest)
    (repoOracle : RepoAnalysis) (env : OrchEnv) (workflow_id now : String)
    (st : OrchState) (hp : truthy request.prompt = false)
    (hr : truthy request.repo_url = false) :
    create_intelligent_workflow request repoOracle env workflow_id now st =
      .error 400 := by
  simp [create_intelligent_workflow, hp, hr]

/-- C4 witness: the empty-prompt request with no repository URL. -/
theorem empty_prompt_rejected_before_oracle_witness :
    create_intelligent_workflow
        { prompt := some "", location := none, repo_url := none }
        { success := true } envPlanFailFx "wf1" "t1" ⟨[]⟩ = .error 400 :=
  empty_prompt_rejected_before_oracle
    { prompt := some "", location := none, repo_url := none }
    { success := true } envPlanFailFx "wf1" "t1" ⟨[]⟩ (by decide) (by decide)

/-! ## C5 — the savings heuristic -/

/-- The savings formula exactly as the claim words it: a flat credit keyed
by each entry's `category` field.  For comparison with the source's
`calculate_savings`, which keys off the `type` field. -/
def claim_savings_by_category (services : List ServiceEntry) : Nat :=
  (services.map (fun s =>
    let c := pyLower (s.category.getD "")
    if c = "compute" then 500
    else if c = "storage" then 200
    else if c = "database" then 300
    else if c = "networking" then 150
    else 0)).sum

/-- A service entry as the pipeline actually produces them: a `category` key
and no `type` key. -/
def categoryOnlyEntryFx : ServiceEntry :=
  { category := some "compute", service := some "EC2" }

/-- C5 counterexample: for a service entry whose `category` is `compute` but
which has no `type` key (the shape every pipeline stage emits),
`analyze_costs` reports 0 savings where the claim's per-category formula
demands 500 — the credit is not determined by the entry's category. -/
theorem savings_not_keyed_by_category_counterexample :
    (analyze_costs { cloud_provider := some "aws", services := [categoryOnlyEntryFx] }
        (.ok "prose report")).estimated_monthly_savings = some 0 ∧
    claim_savings_by_category [categoryOnlyEntryFx] = 500 := by
  decide

theorem foldl_add_eq_sum {α : Type} (f : α → Nat) (l : List α) (a : Nat) :
    l.foldl (fun acc s => acc + f s) a = a + (l.map f).sum := by
  induction l generalizing a with
  | nil => simp
  | cons x xs ih => simp [List.foldl, ih, Nat.add_assoc]

/-- C5 amended: on every successful Oracle call, the
`estimated_monthly_savings` value of `analyze_costs` is computed locally and
deterministically — independent of the Oracle's text — as the sum, over the
service list, of a flat credit keyed by each entry's `type` field
(not its `category`): 500 for compute, 200 for storage, 300 for database,
150 for networking, 0 otherwise (including entries with no `type` key). -/
theorem analyze_costs_savings_formula (infrastructure : CostInfra)
    (text other_text : String) :
    (analyze_costs infrastructure (.ok text)).estimated_monthly_savings =
      some ((infrastructure.services.map (fun s =>
        let t := pyLower (s.type.getD "")
        if t = "compute" then 500
        else if t = "storage" then 200
        else if t = "database" then 300
        else if t = "networking" then 150
        else 0)).sum) ∧
    (analyze_costs infrastructure (.ok text)).estimated_monthly_savings =
      (analyze_costs infrastructure (.ok other_text)).estimated_monthly_savings := by
  refine ⟨?_, by simp [analyze_costs]⟩
  simp only [analyze_costs, calculate_savings]
  have h := foldl_add_eq_sum
    (fun s : ServiceEntry => savings_credit (pyLower (s.type.getD "")))
    infrastructure.services 0
  rw [h]
  simp [savings_credit]

/-! ## C6 — planner parse-failure fallback -/

/-- C6: when the Oracle's reply to the planning request cannot be parsed as
JSON (`Except.ok none`, i.e. `json.JSONDecodeError`), the planner neither
fails nor propagates a parse exception: whatever the parse-level outcomes of
the two later Oracle calls, `plan_infrastructure` returns a successful
decision with the fixed default provider `aws` and region `us-east-1`. -/
theorem planner_parse_failure_falls_back (servicePlanParsed : Option ServicePlan)
    (architectureParsed : Option Architecture) :
    (plan_infrastructure (.ok none) (.ok servicePlanParsed)
        (.ok architectureParsed)).success = true ∧
    (plan_infrastructure (.ok none) (.ok servicePlanParsed)
        (.ok architectureParsed)).cloud_provider = some "aws" ∧
    (plan_infrastructure (.ok none) (.ok servicePlanParsed)
        (.ok architectureParsed)).region = some "us-east-1" := by
  simp [plan_infrastructure, planner_analyze_requirements]

/-! ## C7 — gapless 1-based code versions -/

theorem range'_snoc (s n : Nat) : List.range' s (n + 1) = List.range' s n ++ [s + n] := by
  induction n generalizing s with
  | zero => simp [List.range']
  | succ n ih =>
      rw [List.range']
      rw [ih (s + 1)]
      simp [List.range', Nat.add_assoc, Nat.add_comm 1 n]

theorem foldl_max_range' (n : Nat) : (List.range' 1 n).foldl max 0 = n := by
  induction n with
  | zero => simp [List.range']
  | succ n ih =>
      rw [range'_snoc, List.foldl_append, ih]
      simp only [List.foldl]
      omega

theorem versions_for_append (db : List CodeVersionRec) (row : CodeVersionRec)
    (wf : String) (h : row.workflow_id = wf) :
    versions_for (db ++ [row]) wf = versions_for db wf ++ [row.version] := by
  simp [versions_for, List.filter_append, h]

/-- The per-workflow version list is `[1, …, n]`: this is the gapless,
strictly increasing, 1-based invariant of the claim. -/
abbrev gapless (code_versions : List CodeVersionRec) (wf : String) (n : Nat) : Prop :=
  versions_for code_versions wf = List.range' 1 n

theorem max_version_of_gapless (code_versions : List CodeVersionRec) (wf : String)
    (n : Nat) (h : gapless code_versions wf n) : max_version code_versions wf = n := by
  unfold max_version
  rw [h]
  exact foldl_max_range' n

/-- C7: when the stored versions of a workflow form the gapless 1-based
sequence `[1, …, n]` and the workflow exists, both the user code-update
endpoint and the advisor apply-suggestion endpoint assign version `n + 1`
(`previous_max + 1`, hence 1 when no version exists), extend the stored
sequence to `[1, …, n + 1]`, and leave every previously stored row in place
and in order (the old table is an unchanged prefix, exactly one row longer
afterwards). -/
theorem code_versions_gapless_after_edit (st : ApiState)
    (workflow_id code : String) (desc : Option String) (now : String) (n : Nat)
    (hinv : gapless st.code_versions workflow_id n)
    (hwf : (find_workflow st.workflows workflow_id).isSome = true) :
    ((update_terraform_code st workflow_id code desc now).map
        (fun p => (p.1, versions_for p.2.code_versions workflow_id,
          p.2.code_versions.take st.code_versions.length,
          p.2.code_versions.length)) =
      .ok (n + 1, List.range' 1 (n + 1), st.code_versions,
        st.code_versions.length + 1)) ∧
    ((apply_vishu_suggestion st workflow_id code desc now).map
        (fun p => (p.1, versions_for p.2.code_versions workflow_id,
          p.2.code_versions.take st.code_versions.length,
          p.2.code_versions.length)) =
      .ok (n + 1, List.range' 1 (n + 1), st.code_versions,
        st.code_versions.length + 1)) := by
  obtain ⟨w, hw⟩ := Option.isSome_iff_exists.mp hwf
  have hmax := max_version_of_gapless st.code_versions workflow_id n hinv
  have hv : versions_for st.code_versions workflow_id = List.range' 1 n := hinv
  constructor
  · simp only [update_terraform_code, hw, Except.map]
    rw [versions_for_append _ _ _ rfl, hmax, hv, range'_snoc]
    simp [List.take_left, Nat.add_comm]
  · simp only [apply_vishu_suggestion, hw, Except.map]
    rw [versions_for_append _ _ _ rfl, hmax, hv, range'_snoc]
    simp [List.take_left, Nat.add_comm]

/-- A workflow row fixture. -/
def wfRowFx : DbWorkflow :=
  { workflow_id := "wf1", code_path := "/data/main.tf"
    code_file := some "main.tf", timestamp := "t0" }

/-- Server state fixture: one workflow row, no stored versions yet. -/
def apiStFx : ApiState :=
  { workflows := [wfRowFx]
    code_versions := []
    fs := [("/data/main.tf", "orig")]
    history := [] }

/-- C7 witness: the first edit of a fresh workflow gets version 1. -/
theorem code_versions_gapless_after_edit_witness :
    ((update_terraform_code apiStFx "wf1" "edited" (some "manual edit") "t1").map
        (fun p => (p.1, versions_for p.2.code_versions "wf1",
          p.2.code_versions.take apiStFx.code_versions.length,
          p.2.code_versions.length)) =
      .ok (0 + 1, List.range' 1 (0 + 1), apiStFx.code_versions,
        apiStFx.code_versions.length + 1)) ∧
    ((apply_vishu_suggestion apiStFx "wf1" "edited" (some "manual edit") "t1").map
        (fun p => (p.1, versions_for p.2.code_versions "wf1",
          p.2.code_versions.take apiStFx.code_versions.length,
          p.2.code_versions.length)) =
      .ok (0 + 1, List.range' 1 (0 + 1), apiStFx.code_versions,
        apiStFx.code_versions.length + 1)) :=
  code_versions_gapless_after_edit apiStFx "wf1" "edited" (some "manual edit") "t1" 0
    (by decide) (by decide)

/-! ## C8 — write-then-read round trip -/

/-- C8 counterexample: writing the EMPTY code text succeeds (version
assigned, file truncated to empty), but the immediate read-back returns HTTP
404 instead of the stored text: the endpoint's Python truthiness check
`if terraform_code:` treats the empty string as missing. -/
theorem empty_code_roundtrip_counterexample :
    (update_terraform_code apiStFx "wf1" "" (some "wipe") "t1").map
        (fun p => get_terraform_code p.2 "wf1") = .ok (.error 404) := by
  rfl

/-- C8 amended: for every existing workflow and every NON-EMPTY code text,
writing the text through the code-update endpoint and immediately reading it
back through the code-retrieval endpoint yields exactly the same text (the
empty text instead yields a 404 — see the counterexample). -/
theorem code_roundtrip_nonempty (st : ApiState) (workflow_id code : String)
    (desc : Option String) (now : String) (v : Nat) (st' : ApiState)
    (hupd : update_terraform_code st workflow_id code desc now = .ok (v, st'))
    (hne : code ≠ "") :
    (get_terraform_code st' workflow_id).map (fun r => r.terraform_code) =
      .ok code := by
  cases hw : find_workflow st.workflows workflow_id with
  | none => simp [update_terraform_code, hw] at hupd
  | some w =>
      simp only [update_terraform_code, hw, Except.ok.injEq, Prod.mk.injEq] at hupd
      obtain ⟨-, hst'⟩ := hupd
      subst hst'
      simp [get_terraform_code, hw, read_terraform_file, fsRead_fsWrite_same, hne,
        Except.map]

/-- Server state after the concrete round-trip write. -/
def stAfterUpdateFx : ApiState :=
  match update_terraform_code apiStFx "wf1" "resource x" (some "edit") "t1" with
  | .ok p => p.2
  | .error _ => apiStFx

/-- C8 witness: round trip of a concrete non-empty text. -/
theorem code_roundtrip_nonempty_witness :
    (get_terraform_code stAfterUpdateFx "wf1").map (fun r => r.terraform_code) =
      .ok "resource x" :=
  code_roundtrip_nonempty apiStFx "wf1" "resource x" (some "edit") "t1" 1
    stAfterUpdateFx rfl (by decide)

/-! ## C10 — recommendations come from the static catalog -/

/-- The de-duplication key of a recommendation. -/
def recKey (r : Recommendation) : String × String := (r.category, r.service)

theorem mem_dedup_recs {r : Recommendation} :
    ∀ (l : List Recommendation) (seen : List (String × String)),
      r ∈ dedup_recs l seen → r ∈ l
  | [], _, h => by simp [dedup_recs] at h
  | x :: xs, seen, h => by
      by_cases hc : (x.category, x.service) ∈ seen
      · exact List.mem_cons_of_mem _
          (mem_dedup_recs xs seen (by simpa [dedup_recs, hc] using h))
      · rw [dedup_recs, if_neg hc] at h
        rcases List.mem_cons.mp h with h | h
        · exact h ▸ List.mem_cons_self _ _
        · exact List.mem_cons_of_mem _ (mem_dedup_recs xs _ h)

theorem dedup_recs_key_notin {r : Recommendation} :
    ∀ (l : List Recommendation) (seen : List (String × String)),
      r ∈ dedup_recs l seen → recKey r ∉ seen
  | [], _, h => by simp [dedup_recs] at h
  | x :: xs, seen, h => by
      by_cases hc : (x.category, x.service) ∈ seen
      · exact dedup_recs_key_notin xs seen (by simpa [dedup_recs, hc] using h)
      · rw [dedup_recs, if_neg hc] at h
        rcases List.mem_cons.mp h with h | h
        · subst h
          exact hc
        · intro hmem
          exact (dedup_recs_key_notin xs _ h) (List.mem_cons_of_mem _ hmem)

theorem dedup_recs_pairwise :
    ∀ (l : List Recommendation) (seen : List (String × String)),
      (dedup_recs l seen).Pairwise (fun a b => recKey a ≠ recKey b)
  | [], _ => by simp [dedup_recs]
  | x :: xs, seen => by
      by_cases hc : (x.category, x.service) ∈ seen
      · simpa [dedup_recs, hc] using dedup_recs_pairwise xs seen
      · rw [dedup_recs, if_neg hc]
        refine List.pairwise_cons.mpr ⟨?_, dedup_recs_pairwise xs _⟩
        intro r hr heq
        exact (dedup_recs_key_notin xs _ hr)
          (heq ▸ List.mem_cons_self (recKey x) seen)

theorem mem_collect_category {r : Recommendation}
    (ai_lower provider category : String) :
    ∀ (svcs : List String), r ∈ collect_category ai_lower provider category svcs →
      r.category = category ∧ r.service ∈ svcs ∧ r.provider = provider
  | [], h => by simp [collect_category] at h
  | svc :: rest, h => by
      rw [collect_category] at h
      rcases List.mem_append.mp h with h | h
      · have : r = ⟨category, svc, provider⟩ := by
          by_cases hs : strContains ai_lower (pyLower svc) = true <;>
            simp [hs] at h
          exact h
        subst this
        exact ⟨rfl, List.mem_cons_self _ _, rfl⟩
      · obtain ⟨h1, h2, h3⟩ := mem_collect_category ai_lower provider category rest h
        exact ⟨h1, List.mem_cons_of_mem _ h2, h3⟩

theorem mem_collect_recommendations {r : Recommendation}
    (ai_lower provider : String) :
    ∀ (catalog : List (String × List String)),
      r ∈ collect_recommendations ai_lower provider catalog →
      ∃ cs ∈ catalog, r.category = cs.1 ∧ r.service ∈ cs.2
  | [], h => by simp [collect_recommendations] at h
  | (category, svcs) :: rest, h => by
      rw [collect_recommendations] at h
      rcases List.mem_append.mp h with h | h
      · obtain ⟨h1, h2, -⟩ := mem_collect_category ai_lower provider category svcs h
        exact ⟨(category, svcs), List.mem_cons_self _ _, h1, h2⟩
      · obtain ⟨cs, hcs, h1, h2⟩ := mem_collect_recommendations ai_lower provider rest h
        exact ⟨cs, List.mem_cons_of_mem _ hcs, h1, h2⟩

/-- C10: every recommendation in a successful `analyze_requirements` result
of the Service Selection agent is drawn verbatim from the static service
catalog of the (lower-cased) requested provider; no two entries share a
`(category, service)` pair; and for a provider outside
`aws`/`azure`/`gcp` the recommendations list is empty whatever the Oracle
replied. -/
theorem service_recommendations_from_catalog (requirements : SsRequirements)
    (text : String) :
    (ss_analyze_requirements requirements (.ok text)).success = true ∧
    (∀ r ∈ (ss_analyze_requirements requirements (.ok text)).recommendations,
      ∃ cs ∈ service_catalog (pyLower (requirements.cloud_provider.getD "aws")),
        r.category = cs.1 ∧ r.service ∈ cs.2) ∧
    (ss_analyze_requirements requirements (.ok text)).recommendations.Pairwise
      (fun a b => (a.category, a.service) ≠ (b.category, b.service)) ∧
    (pyLower (requirements.cloud_provider.getD "aws") ∉
        (["aws", "azure", "gcp"] : List String) →
      (ss_analyze_requirements requirements (.ok text)).recommendations = []) := by
  refine ⟨rfl, ?_, ?_, ?_⟩
  · intro r hr
    have hr' := mem_dedup_recs _ _
      (by simpa [ss_analyze_requirements, parse_recommendations] using hr)
    exact mem_collect_recommendations _ _ _ hr'
  · simpa [ss_analyze_requirements, parse_recommendations, recKey] using
      dedup_recs_pairwise
        (collect_recommendations (pyLower (pyStrip text))
          (pyLower (requirements.cloud_provider.getD "aws"))
          (service_catalog (pyLower (requirements.cloud_provider.getD "aws")))) []
  · intro hout
    simp only [List.mem_cons, List.mem_singleton, not_or] at hout
    obtain ⟨h1, h2, h3⟩ := hout
    simp [ss_analyze_requirements, parse_recommendations, service_catalog,
      h1, h2, h3, collect_recommendations, dedup_recs]

/-- C10 witness: an unsupported provider yields a successful result with no
recommendations, whatever service names the Oracle's text mentions. -/
theorem service_recommendations_from_catalog_witness :
    (ss_analyze_requirements { cloud_provider := some "IBM" }
        (.ok "use EC2 and S3")).success = true ∧
    (ss_analyze_requirements { cloud_provider := some "IBM" }
        (.ok "use EC2 and S3")).recommendations = [] :=
  ⟨(service_recommendations_from_catalog { cloud_provider := some "IBM" }
      "use EC2 and S3").1,
   (service_recommendations_from_catalog { cloud_provider := some "IBM" }
      "use EC2 and S3").2.2.2 (by decide)⟩

end InfraX
